import Mathlib

/-!
Verification of the session-claim framework of this repository
(recipe/session/claim_base_classes/primitive_claim.py) against its
natural-language specification.

Shallow embedding conventions:
- Python JSON primitives (str, int, bool) become the inductive
  `JSONPrimitive`; a nullable primitive is `Option JSONPrimitive`
  with `none` standing for Python `None` / JSON null.
- A session payload is an association list from claim keys to
  `PayloadEntry`.  An entry is either the null tombstone written by
  `remove_from_payload_by_merge_`, or the two-field record written by
  `add_to_payload_` whose `v` field is a nullable primitive and whose
  `t` field is `TField` (absent, null, or an integer), because the code
  distinguishes a missing `t` (KeyError on subscript) from a null one
  (TypeError on comparison).
- A Python exception becomes `Except PyError`; every fallible source
  function is translated with explicit error propagation.
- `get_timestamp_ms()` (the external clock) becomes an explicit `now`
  argument, one per source call site; each source function calls the
  clock at most once.
- Python dict equality `claim_val == val` becomes `pyEqOpt`, which is
  faithful to Python semantics on these values: strings never equal
  numbers, but `True == 1` and `False == 0` hold because Python bools
  are integers.
- Python true division `(a - b) / 1000` of integers becomes the exact
  rational `Rat.divInt (a - b) 1000`.
-/

deriving instance DecidableEq for Except

/-- JSON primitive values handled by `PrimitiveClaim` (Python str, int, bool);
Python `None` is represented as `Option.none` around this type. -/
inductive JSONPrimitive where
  | str (s : String)
  | int (n : Int)
  | bool (b : Bool)
  deriving DecidableEq, Repr

/-- Python equality on non-null JSON primitives: strings compare only with
strings; booleans are integers, so `True == 1` and `False == 0`. -/
def pyEq : JSONPrimitive → JSONPrimitive → Bool
  | .str a, .str b => a = b
  | .int a, .int b => a = b
  | .bool a, .bool b => a = b
  | .bool a, .int b => (if a then (1 : Int) else 0) = b
  | .int a, .bool b => a = (if b then (1 : Int) else 0)
  | _, _ => false

/-- Python equality on nullable JSON primitives: `None == None` holds and
`None` equals no primitive. -/
def pyEqOpt : Option JSONPrimitive → Option JSONPrimitive → Bool
  | none, none => true
  | some a, some b => pyEq a b
  | _, _ => false

/-- The `t` field of a stored claim record: absent from the record, present
as null, or an integer timestamp in milliseconds. -/
inductive TField where
  | absent
  | null
  | val (n : Int)
  deriving DecidableEq, Repr

/-- Reading the `t` field with Python `.get`, which collapses absent and
null to `None`. -/
def TField.toOption : TField → Option Int
  | .absent => none
  | .null => none
  | .val n => some n

/-- A payload entry under a claim key: the null tombstone, or the
record with fields `v` and `t` written by `add_to_payload_`. -/
inductive PayloadEntry where
  | null
  | record (v : Option JSONPrimitive) (t : TField)
  deriving DecidableEq, Repr

/-- The session payload: a Python dict from claim keys to entries,
embedded as an association list with unique keys. -/
abbrev Payload := List (String × PayloadEntry)

/-- Python exceptions raised by the translated code paths. -/
inductive PyError where
  | attributeError
  | keyError (k : String)
  | typeError
  | assertionError
  deriving DecidableEq, Repr

/-- Python dict lookup `payload.get(k)` returning `None` when absent. -/
def dictGet : Payload → String → Option PayloadEntry
  | [], _ => none
  | (k', v) :: rest, k => if k' = k then some v else dictGet rest k

/-- Python dict assignment `payload[k] = v`: overwrite in place if the key
exists, else append. -/
def dictSet : Payload → String → PayloadEntry → Payload
  | [], k, v => [(k, v)]
  | (k', v') :: rest, k, v =>
    if k' = k then (k, v) :: rest else (k', v') :: dictSet rest k v

/-- Python `del payload[k]`: remove the key, raising KeyError when absent. -/
def dictDel : Payload → String → Except PyError Payload
  | [], k => .error (.keyError k)
  | (k', v') :: rest, k =>
    if k' = k then .ok rest
    else
      match dictDel rest k with
      | .error e => .error e
      | .ok rest' => .ok ((k', v') :: rest')

/-- PrimitiveClaim.get_value_from_payload: `payload.get(self.key, {}).get("v")`.
When the key is absent the default empty dict yields `None`; when the key
holds the null tombstone, `.get` on `None` raises AttributeError; on a
record it returns the `v` field. -/
def PrimitiveClaim.get_value_from_payload (key : String) (payload : Payload) :
    Except PyError (Option JSONPrimitive) :=
  match dictGet payload key with
  | none => .ok none
  | some .null => .error .attributeError
  | some (.record v _) => .ok v

/-- PrimitiveClaim.get_last_refetch_time: `payload.get(self.key, {}).get("t")`. -/
def PrimitiveClaim.get_last_refetch_time (key : String) (payload : Payload) :
    Except PyError (Option Int) :=
  match dictGet payload key with
  | none => .ok none
  | some .null => .error .attributeError
  | some (.record _ t) => .ok t.toOption

/-- PrimitiveClaim.add_to_payload_: `payload[self.key] = {"v": value, "t": get_timestamp_ms()}`
and return the payload; `now` is the clock value taken during the call. -/
def PrimitiveClaim.add_to_payload_ (key : String) (payload : Payload)
    (value : Option JSONPrimitive) (now : Int) : Payload :=
  dictSet payload key (.record value (.val now))

/-- PrimitiveClaim.remove_from_payload_by_merge_: `payload[self.key] = None`
and return the payload. -/
def PrimitiveClaim.remove_from_payload_by_merge_ (key : String)
    (payload : Payload) : Payload :=
  dictSet payload key .null

/-- PrimitiveClaim.remove_from_payload: `del payload[self.key]` and return
the payload; `del` raises KeyError when the key is absent. -/
def PrimitiveClaim.remove_from_payload (key : String) (payload : Payload) :
    Except PyError Payload :=
  dictDel payload key

/-- A claim bound into a validator.  `primitive` is `PrimitiveClaim`, whose
payload accessors are translated above.  Modelled from the spec: the
abstract `SessionClaim` base class lives in the interfaces module, which is
not among the given source files; per the spec a non-primitive claim kind
supplies its own key and its own `get_value_from_payload` decoding
(pure, returning null if absent), so `nonPrimitive` carries that reader
as data. -/
inductive SessionClaim where
  | primitive (key : String)
  | nonPrimitive (key : String)
      (reader : Payload → Except PyError (Option JSONPrimitive))

/-- The `key` attribute present on every claim. -/
def SessionClaim.key : SessionClaim → String
  | .primitive k => k
  | .nonPrimitive k _ => k

/-- Dynamic dispatch of `self.claim.get_value_from_payload(payload)`. -/
def SessionClaim.get_value_from_payload (c : SessionClaim) (payload : Payload) :
    Except PyError (Option JSONPrimitive) :=
  match c with
  | .primitive k => PrimitiveClaim.get_value_from_payload k payload
  | .nonPrimitive _ reader => reader payload

/-- HasValueSCV: validator state captured by `__init__` (`id_`, the bound
claim, and `params["val"]`). -/
structure HasValueSCV where
  id_ : String
  claim : SessionClaim
  val : Option JSONPrimitive

/-- HasValueSCV.should_refetch: `self.claim.get_value_from_payload(payload) is None`. -/
def HasValueSCV.should_refetch (v : HasValueSCV) (payload : Payload) :
    Except PyError Bool :=
  match v.claim.get_value_from_payload payload with
  | .error e => .error e
  | .ok claim_val => .ok claim_val.isNone

/-- Failure reasons of a validation result, with the exact `message`
strings of the source. -/
inductive Reason where
  | wrongValue (expectedValue actualValue : Option JSONPrimitive)
  | valueDoesNotExist (expectedValue actualValue : Option JSONPrimitive)
  | expired (ageInSeconds : Rat) (maxAgeInSeconds : Int)
  deriving DecidableEq, Repr

/-- The `message` field of a failure reason dict. -/
def Reason.message : Reason → String
  | .wrongValue _ _ => "wrong value"
  | .valueDoesNotExist _ _ => "value does not exist"
  | .expired _ _ => "expired"

/-- A validation result dict: `isValid` true, or false with a reason. -/
inductive ValidationResult where
  | valid
  | invalid (reason : Reason)
  deriving DecidableEq, Repr

/-- The `isValid` field of a validation result. -/
def ValidationResult.isValid : ValidationResult → Bool
  | .valid => true
  | .invalid _ => false

/-- HasValueSCV.validate: read `claim_val`, compare with `params["val"]`
by Python equality, and return the result dict of the source. -/
def HasValueSCV.validate (v : HasValueSCV) (payload : Payload) :
    Except PyError ValidationResult :=
  match v.claim.get_value_from_payload payload with
  | .error e => .error e
  | .ok claim_val =>
    if pyEqOpt claim_val v.val then .ok .valid
    else .ok (.invalid (.wrongValue v.val claim_val))

/-- HasFreshValueSCV: validator state captured by `__init__` (`id_`, the
bound claim, `params["val"]` and `params["max_age_in_sec"]`).  The
constructor performs no check on the kind of the bound claim. -/
structure HasFreshValueSCV where
  id_ : String
  claim : SessionClaim
  val : Option JSONPrimitive
  max_age_in_sec : Int

/-- HasFreshValueSCV.should_refetch:
`(claim value is None) or (payload[self.claim.key]["t"] < now - max_age_in_sec * 1000)`.
The right disjunct subscripts the raw payload entry: KeyError when the key
or the `t` field is absent, TypeError when the entry is the null tombstone
or `t` is null. -/
def HasFreshValueSCV.should_refetch (v : HasFreshValueSCV) (payload : Payload)
    (now : Int) : Except PyError Bool :=
  match v.claim.get_value_from_payload payload with
  | .error e => .error e
  | .ok claim_val =>
    if claim_val.isNone then .ok true
    else
      match dictGet payload v.claim.key with
      | none => .error (.keyError v.claim.key)
      | some .null => .error .typeError
      | some (.record _ t) =>
        match t with
        | .absent => .error (.keyError "t")
        | .null => .error .typeError
        | .val n => .ok (decide (n < now - v.max_age_in_sec * 1000))

/-- HasFreshValueSCV.validate: absence check, then
`assert isinstance(self.claim, PrimitiveClaim)`, then the age check with
`age_in_sec = (now - (get_last_refetch_time or 0)) / 1000`, then the value
check, in source order. -/
def HasFreshValueSCV.validate (v : HasFreshValueSCV) (payload : Payload)
    (now : Int) : Except PyError ValidationResult :=
  match v.claim.get_value_from_payload payload with
  | .error e => .error e
  | .ok claim_val =>
    if claim_val.isNone then
      .ok (.invalid (.valueDoesNotExist v.val claim_val))
    else
      match v.claim with
      | .nonPrimitive _ _ => .error .assertionError
      | .primitive key =>
        match PrimitiveClaim.get_last_refetch_time key payload with
        | .error e => .error e
        | .ok t =>
          let age_in_sec : Rat := Rat.divInt (now - t.getD 0) 1000
          if age_in_sec > (v.max_age_in_sec : Rat) then
            .ok (.invalid (.expired age_in_sec v.max_age_in_sec))
          else if ¬ pyEqOpt claim_val v.val then
            .ok (.invalid (.wrongValue v.val claim_val))
          else .ok .valid

/-- Python `id_ or default` on an optional string: `None` and the empty
string are falsy and fall through to the default. -/
def pyOrString : Option String → String → String
  | none, d => d
  | some s, d => if s = "" then d else s

/-- PrimitiveClaimValidators.has_value: `HasValueSCV((id_ or self.claim.key), self.claim, params)`. -/
def PrimitiveClaimValidators.has_value (claim : SessionClaim)
    (val : Option JSONPrimitive) (id_ : Option String) : HasValueSCV :=
  { id_ := pyOrString id_ claim.key, claim := claim, val := val }

/-- PrimitiveClaimValidators.has_fresh_value:
`HasFreshValueSCV((id_ or (self.claim.key + "-fresh-val")), self.claim, params)`. -/
def PrimitiveClaimValidators.has_fresh_value (claim : SessionClaim)
    (val : Option JSONPrimitive) (max_age_in_sec : Int) (id_ : Option String) :
    HasFreshValueSCV :=
  { id_ := pyOrString id_ (claim.key ++ "-fresh-val"), claim := claim,
    val := val, max_age_in_sec := max_age_in_sec }

/-- Specification-side reading of the claim value, following the spec words
for `get_value_from_payload`: the `v` field of the record under the key if
present, else null.  Used to state refinement theorems against the
translated code. -/
def specClaimValue (payload : Payload) (key : String) : Option JSONPrimitive :=
  match dictGet payload key with
  | some (.record v _) => v
  | _ => none

/-- Specification-side reading of the last-refetch time, following the spec
words for `get_last_refetch_time`: the `t` field of the record under the
key if present, else null. -/
def specLastRefetchTime (payload : Payload) (key : String) : Option Int :=
  match dictGet payload key with
  | some (.record _ t) => t.toOption
  | _ => none

/-- Specification-side reading of the raw stored timestamp `t` used by the
spec sentence on `HasFreshValueValidator.should_refetch`: the integer `t`
field of the record under the key, when it is an integer. -/
def specRawT (payload : Payload) (key : String) : Option Int :=
  match dictGet payload key with
  | some (.record _ (.val n)) => some n
  | _ => none

/-- Specification-side `HasFreshValueValidator.should_refetch`, following
the spec words: true iff the claim value is null or absent, or the stored
timestamp `t` is older than `now - max_age_in_sec * 1000` milliseconds. -/
def specShouldRefetchFresh (key : String) (max_age_in_sec : Int)
    (payload : Payload) (now : Int) : Bool :=
  (specClaimValue payload key).isNone ||
    match specRawT payload key with
    | some n => decide (n < now - max_age_in_sec * 1000)
    | none => false

/-- Specification-side `HasFreshValueValidator.validate`, following the
ordered checks of the spec: absence first, then freshness of
`age_in_sec = (now - last_refetch_time) / 1000` against the max age (with
0 substituted for a null last-refetch time), then value equality, else
success. -/
def specFreshValidateResult (key : String) (val : Option JSONPrimitive)
    (max_age_in_sec : Int) (payload : Payload) (now : Int) : ValidationResult :=
  match specClaimValue payload key with
  | none => .invalid (.valueDoesNotExist val none)
  | some cv =>
    let age_in_sec : Rat := Rat.divInt (now - (specLastRefetchTime payload key).getD 0) 1000
    if age_in_sec > (max_age_in_sec : Rat) then
      .invalid (.expired age_in_sec max_age_in_sec)
    else if ¬ pyEqOpt (some cv) val then
      .invalid (.wrongValue val (some cv))
    else .valid

/-- Payload entries on which `HasFreshValueSCV.should_refetch` completes
without raising: the key absent, a record with null value, or a record
with a value and an integer timestamp. -/
def freshEntryReadable (payload : Payload) (key : String) : Bool :=
  match dictGet payload key with
  | none => true
  | some (.record none _) => true
  | some (.record (some _) (.val _)) => true
  | _ => false

/-- Looking up the key just written by `dictSet` finds the new entry. -/
theorem dictGet_dictSet_self (p : Payload) (k : String) (v : PayloadEntry) :
    dictGet (dictSet p k v) k = some v := by
  induction p with
  | nil => simp [dictSet, dictGet]
  | cons hd tl ih =>
    obtain ⟨a, b⟩ := hd
    by_cases h : a = k
    · simp [dictSet, dictGet, h]
    · simp [dictSet, dictGet, h, ih]

/-- Looking up any other key after `dictSet` is unchanged. -/
theorem dictGet_dictSet_ne (p : Payload) (key k : String) (v : PayloadEntry)
    (h : k ≠ key) : dictGet (dictSet p key v) k = dictGet p k := by
  induction p with
  | nil =>
    simp only [dictSet, dictGet]
    rw [if_neg (Ne.symm h)]
  | cons hd tl ih =>
    obtain ⟨a, b⟩ := hd
    simp only [dictSet]
    by_cases ha : a = key
    · have hak : ¬ a = k := by rw [ha]; exact Ne.symm h
      rw [if_pos ha]
      simp only [dictGet]
      rw [if_neg (Ne.symm h), if_neg hak]
    · rw [if_neg ha]
      simp only [dictGet]
      by_cases hk : a = k
      · rw [if_pos hk, if_pos hk]
      · rw [if_neg hk, if_neg hk, ih]

/-- When `dictDel` succeeds, every other key is unchanged. -/
theorem dictGet_dictDel_ne (p q : Payload) (key k : String) (h : k ≠ key)
    (hdel : dictDel p key = .ok q) : dictGet q k = dictGet p k := by
  induction p generalizing q with
  | nil => simp [dictDel] at hdel
  | cons hd tl ih =>
    obtain ⟨a, b⟩ := hd
    simp only [dictDel] at hdel
    by_cases ha : a = key
    · have hak : ¬ a = k := by rw [ha]; exact Ne.symm h
      rw [if_pos ha] at hdel
      injection hdel with hq
      subst hq
      simp only [dictGet]
      rw [if_neg hak]
    · rw [if_neg ha] at hdel
      cases hrec : dictDel tl key with
      | error e => rw [hrec] at hdel; simp at hdel
      | ok rest' =>
        rw [hrec] at hdel
        simp only [Except.ok.injEq] at hdel
        subst hdel
        simp only [dictGet]
        by_cases hk : a = k
        · rw [if_pos hk, if_pos hk]
        · rw [if_neg hk, if_neg hk, ih rest' hrec]

/-- `dictDel` on an absent key raises KeyError. -/
theorem dictDel_absent (p : Payload) (key : String)
    (h : dictGet p key = none) : dictDel p key = .error (.keyError key) := by
  induction p with
  | nil => simp [dictDel]
  | cons hd tl ih =>
    obtain ⟨a, b⟩ := hd
    by_cases ha : a = key
    · simp [dictGet, ha] at h
    · simp [dictGet, ha] at h
      simp [dictDel, ha, ih h]

/-- C1: the claim says `remove_from_payload_by_merge_` followed by
`get_value_from_payload` returns null without raising, with the key still
present mapped to null.  The key is indeed left present mapped to null,
but the code then raises: `payload.get(self.key, {})` returns the stored
`None`, and `.get("v")` on `None` raises AttributeError.  This theorem
evaluates the translated code at the failing input, the payload produced
by the merge removal itself. -/
theorem c1_merge_remove_then_get_raises :
    dictGet (PrimitiveClaim.remove_from_payload_by_merge_ "sub" []) "sub"
      = some PayloadEntry.null
    ∧ PrimitiveClaim.get_value_from_payload "sub"
        (PrimitiveClaim.remove_from_payload_by_merge_ "sub" [])
      = .error .attributeError :=
  ⟨rfl, rfl⟩

/-- C2 counterexample: the claim says validation succeeds only when both
the type and the value match, and in particular that a boolean is not
equal to a number.  The code compares with Python `==`, under which
`True == 1` holds; with stored claim value `true` and expected value the
number 1, `HasValueSCV.validate` returns isValid true, so the claim as
stated is false at this input. -/
theorem c2_counterexample_bool_equals_int :
    HasValueSCV.validate
      (PrimitiveClaimValidators.has_value (.primitive "k") (some (.int 1)) none)
      [("k", PayloadEntry.record (some (.bool true)) (.val 0))]
      = .ok .valid := rfl

/-- C2 (amended): for every payload whose entry at the claim key is not
the null tombstone (on a tombstone the value read raises AttributeError),
`HasValueSCV.validate` returns isValid true iff the stored claim value
equals the expected value under Python equality, which distinguishes
strings from numbers but identifies booleans with the numbers 1 and 0;
on mismatch it returns isValid false with reason message "wrong value"
carrying the expected and actual values. -/
theorem c2_has_value_validate (key : String) (val : Option JSONPrimitive)
    (id_ : Option String) (p : Payload)
    (h : dictGet p key ≠ some PayloadEntry.null) :
    HasValueSCV.validate
      (PrimitiveClaimValidators.has_value (.primitive key) val id_) p
      = .ok (if pyEqOpt (specClaimValue p key) val then .valid
             else .invalid (.wrongValue val (specClaimValue p key)))
    ∧ Reason.message (.wrongValue val (specClaimValue p key)) = "wrong value"
    ∧ pyEq (.str "1") (.int 1) = false
    ∧ pyEq (.bool true) (.int 1) = true := by
  refine ⟨?_, rfl, rfl, rfl⟩
  cases hg : dictGet p key with
  | none =>
    simp only [HasValueSCV.validate, PrimitiveClaimValidators.has_value,
      SessionClaim.get_value_from_payload, PrimitiveClaim.get_value_from_payload,
      specClaimValue, hg]
    split <;> rfl
  | some e =>
    cases e with
    | null => exact absurd hg h
    | record v t =>
      simp only [HasValueSCV.validate, PrimitiveClaimValidators.has_value,
        SessionClaim.get_value_from_payload, PrimitiveClaim.get_value_from_payload,
        specClaimValue, hg]
      split <;> rfl

/-- C2 witness: the spec example, stored value the number 5 and expected
value the string "5": the hypothesis holds and the validator rejects. -/
theorem c2_has_value_validate_witness :
    dictGet [("k", PayloadEntry.record (some (.int 5)) (.val 0))] "k"
      ≠ some PayloadEntry.null
    ∧ (HasValueSCV.validate
        (PrimitiveClaimValidators.has_value (.primitive "k") (some (.str "5")) none)
        [("k", PayloadEntry.record (some (.int 5)) (.val 0))]
        = .ok (if pyEqOpt
            (specClaimValue [("k", PayloadEntry.record (some (.int 5)) (.val 0))] "k")
            (some (.str "5")) then .valid
          else .invalid (.wrongValue (some (.str "5"))
            (specClaimValue [("k", PayloadEntry.record (some (.int 5)) (.val 0))] "k")))
       ∧ Reason.message (.wrongValue (some (.str "5"))
          (specClaimValue [("k", PayloadEntry.record (some (.int 5)) (.val 0))] "k"))
          = "wrong value"
       ∧ pyEq (.str "1") (.int 1) = false
       ∧ pyEq (.bool true) (.int 1) = true) :=
  ⟨by decide, c2_has_value_validate "k" (some (.str "5")) none _ (by decide)⟩

/-- C6: after `add_to_payload_(p, x, ctx)` executed at clock value `now`,
`get_value_from_payload` returns exactly `x` and `get_last_refetch_time`
returns `now`, the timestamp taken during the add call. -/
theorem c6_add_then_get (key : String) (p : Payload) (x : Option JSONPrimitive)
    (now : Int) :
    PrimitiveClaim.get_value_from_payload key
      (PrimitiveClaim.add_to_payload_ key p x now) = .ok x
    ∧ PrimitiveClaim.get_last_refetch_time key
      (PrimitiveClaim.add_to_payload_ key p x now) = .ok (some now) := by
  constructor
  · simp [PrimitiveClaim.get_value_from_payload, PrimitiveClaim.add_to_payload_,
      dictGet_dictSet_self]
  · simp [PrimitiveClaim.get_last_refetch_time, PrimitiveClaim.add_to_payload_,
      dictGet_dictSet_self, TField.toOption]

/-- C7 counterexample: the claim quantifies over every payload, but on the
null tombstone written by the merge removal `HasValueSCV.should_refetch`
raises AttributeError instead of returning true, because the value read
itself raises. -/
theorem c7_counterexample_tombstone_raises :
    HasValueSCV.should_refetch
      (PrimitiveClaimValidators.has_value (.primitive "k") (some (.int 1)) none)
      [("k", PayloadEntry.null)] = .error .attributeError := rfl

/-- C7 (amended): for every payload whose entry at the claim key is not
the null tombstone, `HasValueSCV.should_refetch` returns true iff the
claim value is null or absent, hence false as soon as any value is
present, including the falsy primitives false and 0. -/
theorem c7_has_value_should_refetch (key : String) (val : Option JSONPrimitive)
    (id_ : Option String) (p : Payload)
    (h : dictGet p key ≠ some PayloadEntry.null) :
    HasValueSCV.should_refetch
      (PrimitiveClaimValidators.has_value (.primitive key) val id_) p
      = .ok (specClaimValue p key).isNone := by
  cases hg : dictGet p key with
  | none =>
    simp [HasValueSCV.should_refetch, PrimitiveClaimValidators.has_value,
      SessionClaim.get_value_from_payload, PrimitiveClaim.get_value_from_payload,
      specClaimValue, hg]
  | some e =>
    cases e with
    | null => exact absurd hg h
    | record v t =>
      simp [HasValueSCV.should_refetch, PrimitiveClaimValidators.has_value,
        SessionClaim.get_value_from_payload, PrimitiveClaim.get_value_from_payload,
        specClaimValue, hg]

/-- C7 witness: with the falsy primitive false stored, the hypothesis
holds and should_refetch returns false. -/
theorem c7_has_value_should_refetch_witness :
    dictGet [("k", PayloadEntry.record (some (.bool false)) (.val 0))] "k"
      ≠ some PayloadEntry.null
    ∧ HasValueSCV.should_refetch
        (PrimitiveClaimValidators.has_value (.primitive "k") (some (.int 1)) none)
        [("k", PayloadEntry.record (some (.bool false)) (.val 0))]
      = .ok (specClaimValue
          [("k", PayloadEntry.record (some (.bool false)) (.val 0))] "k").isNone
    ∧ (specClaimValue
        [("k", PayloadEntry.record (some (.bool false)) (.val 0))] "k").isNone
      = false :=
  ⟨by decide,
   c7_has_value_should_refetch "k" (some (.int 1)) none _ (by decide),
   by decide⟩

/-- C8 counterexample: the claim says an explicitly supplied id, any
string, overrides the default.  The code computes `id_ or self.claim.key`
and the empty string is falsy in Python, so the supplied empty id is
ignored and the default claim key is used instead. -/
theorem c8_counterexample_empty_id_ignored :
    (PrimitiveClaimValidators.has_value (.primitive "k") (some (.int 1))
        (some "")).id_ = "k" := rfl

/-- C8 (amended): `has_value` defaults its id to the claim key and
`has_fresh_value` to the claim key followed by "-fresh-val"; a supplied
non-empty id overrides the default in both factories, while a supplied
empty string is falsy under Python `or` and falls back to the default. -/
theorem c8_validator_ids (c : SessionClaim) (val : Option JSONPrimitive)
    (max_age_in_sec : Int) (s : String) :
    (PrimitiveClaimValidators.has_value c val none).id_ = c.key
    ∧ (PrimitiveClaimValidators.has_fresh_value c val max_age_in_sec none).id_
      = c.key ++ "-fresh-val"
    ∧ (s ≠ "" →
        (PrimitiveClaimValidators.has_value c val (some s)).id_ = s
        ∧ (PrimitiveClaimValidators.has_fresh_value c val max_age_in_sec
            (some s)).id_ = s)
    ∧ (PrimitiveClaimValidators.has_value c val (some "")).id_ = c.key
    ∧ (PrimitiveClaimValidators.has_fresh_value c val max_age_in_sec
        (some "")).id_ = c.key ++ "-fresh-val" := by
  refine ⟨rfl, rfl, fun hs => ⟨?_, ?_⟩, ?_, ?_⟩
  · simp [PrimitiveClaimValidators.has_value, pyOrString, hs]
  · simp [PrimitiveClaimValidators.has_fresh_value, pyOrString, hs]
  · simp [PrimitiveClaimValidators.has_value, pyOrString]
  · simp [PrimitiveClaimValidators.has_fresh_value, pyOrString]

/-- C8 witness: a supplied non-empty id "custom" overrides both defaults. -/
theorem c8_validator_ids_witness :
    ("custom" : String) ≠ ""
    ∧ ((PrimitiveClaimValidators.has_value (.primitive "k") (some (.int 1))
          (some "custom")).id_ = "custom"
       ∧ (PrimitiveClaimValidators.has_fresh_value (.primitive "k")
          (some (.int 1)) 60 (some "custom")).id_ = "custom") :=
  ⟨by decide,
   (c8_validator_ids (.primitive "k") (some (.int 1)) 60 "custom").2.2.1
     (by decide)⟩

/-- C9 counterexample: the claim says each of the three payload mutators
returns the very same payload it was given.  `remove_from_payload` uses
`del`, which raises KeyError when the claim key is absent, so on the
empty payload it returns nothing at all. -/
theorem c9_counterexample_remove_absent_raises :
    PrimitiveClaim.remove_from_payload "k" [] = .error (.keyError "k") := rfl

/-- C9 (amended): for every payload and every key k different from the
claim key, `add_to_payload_` and `remove_from_payload_by_merge_` leave
the mapping at k unchanged and return the mutated payload, and
`remove_from_payload` leaves the mapping at k unchanged whenever it
succeeds, but raises KeyError, returning no payload, when the claim key
is absent. -/
theorem c9_frame (key : String) (p : Payload) (k : String)
    (x : Option JSONPrimitive) (now : Int) (h : k ≠ key) :
    dictGet (PrimitiveClaim.add_to_payload_ key p x now) k = dictGet p k
    ∧ dictGet (PrimitiveClaim.remove_from_payload_by_merge_ key p) k
      = dictGet p k
    ∧ (∀ q, PrimitiveClaim.remove_from_payload key p = .ok q →
        dictGet q k = dictGet p k)
    ∧ (dictGet p key = none →
        PrimitiveClaim.remove_from_payload key p = .error (.keyError key)) := by
  refine ⟨?_, ?_, ?_, ?_⟩
  · exact dictGet_dictSet_ne p key k _ h
  · exact dictGet_dictSet_ne p key k _ h
  · intro q hq
    exact dictGet_dictDel_ne p q key k h hq
  · intro habs
    exact dictDel_absent p key habs

/-- C9 witness: on a one-entry payload under a different key, the frame
property holds for the claim key "k". -/
theorem c9_frame_witness :
    ("a" : String) ≠ "k"
    ∧ (dictGet (PrimitiveClaim.add_to_payload_ "k"
          [("a", PayloadEntry.record none .absent)] none 0) "a"
        = dictGet [("a", PayloadEntry.record none .absent)] "a"
       ∧ dictGet (PrimitiveClaim.remove_from_payload_by_merge_ "k"
          [("a", PayloadEntry.record none .absent)]) "a"
        = dictGet [("a", PayloadEntry.record none .absent)] "a"
       ∧ (∀ q, PrimitiveClaim.remove_from_payload "k"
            [("a", PayloadEntry.record none .absent)] = .ok q →
          dictGet q "a" = dictGet [("a", PayloadEntry.record none .absent)] "a")
       ∧ (dictGet [("a", PayloadEntry.record none .absent)] "k" = none →
          PrimitiveClaim.remove_from_payload "k"
            [("a", PayloadEntry.record none .absent)]
            = .error (.keyError "k"))) :=
  ⟨by decide, c9_frame "k" [("a", PayloadEntry.record none .absent)] "a" none 0
    (by decide)⟩

/-- C3 counterexample: the claim quantifies over every payload, but on the
null tombstone written by the merge removal `HasFreshValueSCV.validate`
raises AttributeError while reading the claim value, instead of failing
with the message "value does not exist" as the claimed first check
would. -/
theorem c3_counterexample_tombstone_raises :
    HasFreshValueSCV.validate
      (PrimitiveClaimValidators.has_fresh_value (.primitive "k")
        (some (.int 5)) 100 none)
      [("k", PayloadEntry.null)] 0 = .error .attributeError := rfl

/-- C3 (amended): for every payload whose entry at the claim key is not
the null tombstone, `HasFreshValueSCV.validate` performs its checks in
the claimed order: claim-value absence first (message "value does not
exist"), then freshness of `age_in_sec = (now - last_refetch_time) / 1000`
against `max_age_in_sec` (message "expired" with ageInSeconds and
maxAgeInSeconds, substituting 0 for a null last-refetch time), then value
equality (message "wrong value"), else success; the second conjunct is
the claimed consequence, an expired claim is reported as expired even
when its stale value equals the expected value. -/
theorem c3_fresh_validate_order (key : String) (val : Option JSONPrimitive)
    (max_age_in_sec : Int) (id_ : Option String) (p : Payload) (now : Int)
    (h : dictGet p key ≠ some PayloadEntry.null) :
    HasFreshValueSCV.validate
      (PrimitiveClaimValidators.has_fresh_value (.primitive key) val
        max_age_in_sec id_) p now
      = .ok (specFreshValidateResult key val max_age_in_sec p now)
    ∧ (∀ cv, specClaimValue p key = some cv →
        pyEqOpt (some cv) val = true →
        Rat.divInt (now - (specLastRefetchTime p key).getD 0) 1000
          > (max_age_in_sec : Rat) →
        HasFreshValueSCV.validate
          (PrimitiveClaimValidators.has_fresh_value (.primitive key) val
            max_age_in_sec id_) p now
          = .ok (.invalid (.expired
              (Rat.divInt (now - (specLastRefetchTime p key).getD 0) 1000)
              max_age_in_sec))) := by
  have hmain : HasFreshValueSCV.validate
      (PrimitiveClaimValidators.has_fresh_value (.primitive key) val
        max_age_in_sec id_) p now
      = .ok (specFreshValidateResult key val max_age_in_sec p now) := by
    cases hg : dictGet p key with
    | none =>
      simp [HasFreshValueSCV.validate, PrimitiveClaimValidators.has_fresh_value,
        SessionClaim.get_value_from_payload, PrimitiveClaim.get_value_from_payload,
        specFreshValidateResult, specClaimValue, hg]
    | some e =>
      cases e with
      | null => exact absurd hg h
      | record v t =>
        cases v with
        | none =>
          simp [HasFreshValueSCV.validate, PrimitiveClaimValidators.has_fresh_value,
            SessionClaim.get_value_from_payload, PrimitiveClaim.get_value_from_payload,
            specFreshValidateResult, specClaimValue, hg]
        | some cv =>
          simp only [HasFreshValueSCV.validate, PrimitiveClaimValidators.has_fresh_value,
            SessionClaim.get_value_from_payload, PrimitiveClaim.get_value_from_payload,
            PrimitiveClaim.get_last_refetch_time, specFreshValidateResult,
            specClaimValue, specLastRefetchTime, hg, Option.isNone_some,
            Bool.false_eq_true, if_false]
          split
          · rfl
          · split <;> rfl
  refine ⟨hmain, fun cv hcv heq hgt => ?_⟩
  rw [hmain]
  simp only [specFreshValidateResult, hcv]
  rw [if_pos hgt]

/-- C3 witness: the value was written 150 seconds ago, max age 100, and
the stored value equals the expected one; the result is "expired". -/
theorem c3_fresh_validate_order_witness :
    dictGet [("k", PayloadEntry.record (some (.int 5)) (.val 0))] "k"
      ≠ some PayloadEntry.null
    ∧ HasFreshValueSCV.validate
        (PrimitiveClaimValidators.has_fresh_value (.primitive "k")
          (some (.int 5)) 100 none)
        [("k", PayloadEntry.record (some (.int 5)) (.val 0))] 150000
      = .ok (specFreshValidateResult "k" (some (.int 5)) 100
          [("k", PayloadEntry.record (some (.int 5)) (.val 0))] 150000)
    ∧ HasFreshValueSCV.validate
        (PrimitiveClaimValidators.has_fresh_value (.primitive "k")
          (some (.int 5)) 100 none)
        [("k", PayloadEntry.record (some (.int 5)) (.val 0))] 150000
      = .ok (.invalid (.expired
          (Rat.divInt (150000 - (specLastRefetchTime
            [("k", PayloadEntry.record (some (.int 5)) (.val 0))] "k").getD 0) 1000)
          100)) :=
  ⟨by decide,
   (c3_fresh_validate_order "k" (some (.int 5)) 100 none _ 150000 (by decide)).1,
   (c3_fresh_validate_order "k" (some (.int 5)) 100 none _ 150000 (by decide)).2
     (.int 5) (by decide) (by decide) (by decide)⟩

/-- C4 counterexample: the claim quantifies over every payload, but on the
null tombstone written by the merge removal
`HasFreshValueSCV.should_refetch` raises AttributeError while reading the
claim value, instead of returning a boolean. -/
theorem c4_counterexample_tombstone_raises :
    HasFreshValueSCV.should_refetch
      (PrimitiveClaimValidators.has_fresh_value (.primitive "k")
        (some (.int 5)) 100 none)
      [("k", PayloadEntry.null)] 0 = .error .attributeError := rfl

/-- C4 (amended): for every payload whose entry at the claim key is
absent, a record with null value, or a record with a value and an integer
timestamp, `HasFreshValueSCV.should_refetch` returns true iff the claim
value is null or absent, or the raw stored timestamp `t` is older than
`now - max_age_in_sec * 1000` milliseconds, the freshness side reading
the raw payload `t` field directly; on a tombstone, or a record whose
value is present but whose `t` is missing or null, it raises instead. -/
theorem c4_fresh_should_refetch (key : String) (val : Option JSONPrimitive)
    (max_age_in_sec : Int) (id_ : Option String) (p : Payload) (now : Int)
    (h : freshEntryReadable p key = true) :
    HasFreshValueSCV.should_refetch
      (PrimitiveClaimValidators.has_fresh_value (.primitive key) val
        max_age_in_sec id_) p now
      = .ok (specShouldRefetchFresh key max_age_in_sec p now) := by
  cases hg : dictGet p key with
  | none =>
    simp [HasFreshValueSCV.should_refetch, PrimitiveClaimValidators.has_fresh_value,
      SessionClaim.get_value_from_payload, PrimitiveClaim.get_value_from_payload,
      specShouldRefetchFresh, specClaimValue, specRawT, hg]
  | some e =>
    cases e with
    | null => simp [freshEntryReadable, hg] at h
    | record v t =>
      cases v with
      | none =>
        simp [HasFreshValueSCV.should_refetch, PrimitiveClaimValidators.has_fresh_value,
          SessionClaim.get_value_from_payload, PrimitiveClaim.get_value_from_payload,
          specShouldRefetchFresh, specClaimValue, specRawT, hg]
      | some cv =>
        cases t with
        | absent => simp [freshEntryReadable, hg] at h
        | null => simp [freshEntryReadable, hg] at h
        | val n =>
          simp [HasFreshValueSCV.should_refetch, PrimitiveClaimValidators.has_fresh_value,
            SessionClaim.get_value_from_payload, PrimitiveClaim.get_value_from_payload,
            SessionClaim.key, specShouldRefetchFresh, specClaimValue, specRawT, hg]

/-- C4 witness: value present with raw timestamp 0 and now 200000 ms with
max age 100 s; the entry is readable and should_refetch returns true. -/
theorem c4_fresh_should_refetch_witness :
    freshEntryReadable [("k", PayloadEntry.record (some (.int 1)) (.val 0))] "k"
      = true
    ∧ HasFreshValueSCV.should_refetch
        (PrimitiveClaimValidators.has_fresh_value (.primitive "k")
          (some (.int 1)) 100 none)
        [("k", PayloadEntry.record (some (.int 1)) (.val 0))] 200000
      = .ok (specShouldRefetchFresh "k" 100
          [("k", PayloadEntry.record (some (.int 1)) (.val 0))] 200000)
    ∧ specShouldRefetchFresh "k" 100
        [("k", PayloadEntry.record (some (.int 1)) (.val 0))] 200000 = true :=
  ⟨by decide,
   c4_fresh_should_refetch "k" (some (.int 1)) 100 none _ 200000 (by decide),
   by decide⟩

/-- C5 counterexample: the claim says binding a fresh-value validator to a
non-primitive claim is fatal at construction time and surfaces before any
validation result.  The constructor performs no check, and on a payload
where the mis-bound claim reads a null value, `validate` returns a
validation result (value does not exist) without any error: the type
assertion sits inside `validate` after the absence check, so it is never
reached here. -/
theorem c5_counterexample_misbound_validator_returns_result :
    HasFreshValueSCV.validate
      (PrimitiveClaimValidators.has_fresh_value
        (.nonPrimitive "k" (fun _ => .ok none)) (some (.int 1)) 10 none) [] 0
      = .ok (.invalid (.valueDoesNotExist (some (.int 1)) none)) := rfl

/-- C5 (amended): the isinstance assertion on the bound claim is performed
inside `validate`, only on the path where the claim value was found
present; for every validator bound to a non-primitive claim whose read
yields a present value, `validate` raises AssertionError there (while
construction itself never fails, and an absent value produces a normal
validation result first). -/
theorem c5_assertion_inside_validate (key : String)
    (reader : Payload → Except PyError (Option JSONPrimitive))
    (val : Option JSONPrimitive) (max_age_in_sec : Int) (id_ : Option String)
    (p : Payload) (now : Int) (x : JSONPrimitive)
    (h : reader p = .ok (some x)) :
    HasFreshValueSCV.validate
      (PrimitiveClaimValidators.has_fresh_value (.nonPrimitive key reader) val
        max_age_in_sec id_) p now
      = .error .assertionError := by
  simp [HasFreshValueSCV.validate, PrimitiveClaimValidators.has_fresh_value,
    SessionClaim.get_value_from_payload, h]

/-- C5 witness: a mis-bound validator whose claim reads the value 3 from
the empty payload raises AssertionError inside validate. -/
theorem c5_assertion_inside_validate_witness :
    (fun (_ : Payload) =>
        (.ok (some (.int 3)) : Except PyError (Option JSONPrimitive))) []
      = .ok (some (.int 3))
    ∧ HasFreshValueSCV.validate
        (PrimitiveClaimValidators.has_fresh_value
          (.nonPrimitive "k" (fun _ => .ok (some (.int 3))))
          (some (.int 1)) 10 none) [] 5
      = .error .assertionError :=
  ⟨rfl, c5_assertion_inside_validate "k" (fun _ => .ok (some (.int 3)))
    (some (.int 1)) 10 none [] 5 (.int 3) rfl⟩

/-- C10: when the entry under the claim key is a record with a present
non-null value but a missing or null `t` field, `HasFreshValueSCV.validate`
neither raises nor reports a decode error: `get_last_refetch_time or 0`
substitutes 0, so whenever `now > max_age_in_sec * 1000` the result is
isValid false with message "expired" and ageInSeconds computed from
epoch 0, that is now / 1000. -/
theorem c10_missing_t_expired_from_epoch (key : String)
    (val : Option JSONPrimitive) (max_age_in_sec : Int) (id_ : Option String)
    (p : Payload) (now : Int) (x : JSONPrimitive) (t : TField)
    (hget : dictGet p key = some (.record (some x) t))
    (ht : t.toOption = none)
    (hnow : now > max_age_in_sec * 1000) :
    HasFreshValueSCV.validate
      (PrimitiveClaimValidators.has_fresh_value (.primitive key) val
        max_age_in_sec id_) p now
      = .ok (.invalid (.expired (Rat.divInt now 1000) max_age_in_sec)) := by
  have hq : Rat.divInt now 1000 > (max_age_in_sec : Rat) := by
    rw [Rat.divInt_eq_div, gt_iff_lt, lt_div_iff₀ (by norm_num)]
    exact_mod_cast hnow
  simp only [HasFreshValueSCV.validate, PrimitiveClaimValidators.has_fresh_value,
    SessionClaim.get_value_from_payload, PrimitiveClaim.get_value_from_payload,
    PrimitiveClaim.get_last_refetch_time, hget, ht, Option.isNone_some,
    Bool.false_eq_true, if_false, Option.getD_none, sub_zero]
  rw [if_pos hq]

/-- C10 witness: value 5 present, `t` absent, now 200000 ms, max age
100 s: 200000 > 100000, and validate reports expired with age
200000 / 1000 = 200 seconds. -/
theorem c10_missing_t_expired_from_epoch_witness :
    dictGet [("k", PayloadEntry.record (some (.int 5)) .absent)] "k"
      = some (PayloadEntry.record (some (.int 5)) TField.absent)
    ∧ TField.absent.toOption = none
    ∧ (200000 : Int) > 100 * 1000
    ∧ HasFreshValueSCV.validate
        (PrimitiveClaimValidators.has_fresh_value (.primitive "k")
          (some (.int 5)) 100 none)
        [("k", PayloadEntry.record (some (.int 5)) .absent)] 200000
      = .ok (.invalid (.expired (Rat.divInt 200000 1000) 100))
    ∧ Rat.divInt 200000 1000 = 200 :=
  ⟨rfl, rfl, by decide,
   c10_missing_t_expired_from_epoch "k" (some (.int 5)) 100 none _ 200000
     (.int 5) .absent rfl rfl (by decide),
   by decide⟩
